import Mathlib

/-!
Verification of `src/proxmox_mcp/tools/vm_console.py` (`VMConsoleManager.execute_command`)
against its natural-language specification.

The method is embedded shallowly: Python values become the inductive `PyVal`,
Python exceptions become `Exc` (a type tag distinguishing `ValueError` from
everything else, plus the `str(e)` message), and the single external
collaborator (the Proxmox API handle) becomes a record `Collab` of the three
call results the method consumes (status query, exec submit, exec-status
poll).  The method itself becomes the pure function `execute_command`, which
also returns the trace of collaborator events (status check, submit, settle
delay, poll) so that temporal claims can be stated.
-/

namespace VmConsole

/-- Model of the Python values flowing through `execute_command`:
strings, integers, booleans, `None`, and dicts (association lists with
string keys, first binding wins as in a Python dict). -/
inductive PyVal where
  | str : String → PyVal
  | int : Int → PyVal
  | bool : Bool → PyVal
  | pyNone : PyVal
  | dict : List (String × PyVal) → PyVal

/-- Python truthiness (`bool(v)`), used by `if not console:` on line 78. -/
def PyVal.truthy : PyVal → Bool
  | .str s => !s.isEmpty
  | .int n => n != 0
  | .bool b => b
  | .pyNone => false
  | .dict d => !d.isEmpty

/-- A Python exception as observed by the handlers in `execute_command`:
whether it is a `ValueError` (the only type the code branches on, line 123)
and its `str(e)` message. -/
structure Exc where
  isValueError : Bool
  msg : String
deriving DecidableEq, Repr

/-- `str(v)` for the values the non-dict normalization branch (line 106)
can see.  The dict case is unreachable there (line 94 sends dicts to the
structured branch); it is given a fixed rendering for totality. -/
def pyStr : PyVal → String
  | .str s => s
  | .int n => toString n
  | .bool b => if b then "True" else "False"
  | .pyNone => "None"
  | .dict _ => "dict"

/-- `d.get(k, dflt)` on the association-list model of a Python dict. -/
def dictGet (d : List (String × PyVal)) (k : String) (dflt : PyVal) : PyVal :=
  match d.find? (fun p => p.1 == k) with
  | some p => p.2
  | none => dflt

/-- Is `p` a prefix of `s`? (Boolean, over char lists.) -/
def charsHasPref : List Char → List Char → Bool
  | [], _ => true
  | _ :: _, [] => false
  | a :: p, b :: s => a == b && charsHasPref p s

/-- Does `hay` contain `needle` as a contiguous substring? -/
def charsHasSub (needle : List Char) : List Char → Bool
  | [] => charsHasPref needle []
  | c :: t => charsHasPref needle (c :: t) || charsHasSub needle t

/-- `k in v` (Python membership test, line 63): key lookup on dicts,
substring search on strings, `TypeError` otherwise. -/
def pyContains : PyVal → String → Except Exc Bool
  | .dict d, k => .ok (d.any (fun p => p.1 == k))
  | .str s, k => .ok (charsHasSub k.data s.data)
  | _, _ => .error ⟨false, "argument is not iterable"⟩

/-- `v[k]` (Python subscript, lines 38 and 66): dict key lookup raising
`KeyError` when absent, `TypeError` on non-dict values.  Neither message
contains the phrase the not-found heuristic looks for. -/
def pySubscript : PyVal → String → Except Exc PyVal
  | .dict d, k =>
      match d.find? (fun p => p.1 == k) with
      | some p => .ok p.2
      | none => .error ⟨false, "KeyError: " ++ k⟩
  | .str _, _ => .error ⟨false, "string indices must be integers"⟩
  | _, _ => .error ⟨false, "object is not subscriptable"⟩

/-- `"not found" in m.lower()` — the heuristic on line 128. -/
def msgHasNotFound (m : String) : Bool :=
  charsHasSub "not found".data (m.data.map Char.toLower)

/-- The collaborator events `execute_command` can emit, in source order:
the VM status query (line 37), the exec submit (line 56), the fixed
`asyncio.sleep(1)` settle delay (line 71), and the exec-status poll
(line 76). -/
inductive Ev where
  | statusCheck : Ev
  | submit : Ev
  | settle : Ev
  | poll : Ev
deriving DecidableEq, Repr

/-- The result dict built on lines 116-121.  It has exactly these four
fields: `success`, `output`, `error`, `exit_code`. -/
structure ExecutionResult where
  success : Bool
  output : PyVal
  error : PyVal
  exit_code : PyVal

/-- The external collaborator: the outcome of each remote call the method
makes.  `statusResult` is `nodes(node).qemu(vmid).status.current.get()`;
`execResult` is `agent("exec").post(command=command)` as a function of the
command; `pollResult` is `agent("exec-status").get(pid=pid)` as a function
of the pid. -/
structure Collab where
  statusResult : Except Exc PyVal
  execResult : String → Except Exc PyVal
  pollResult : PyVal → Except Exc PyVal

/-- Outcome of one invocation: the returned dict or the surfaced
exception, together with the trace of collaborator events. -/
structure Outcome where
  result : Except Exc ExecutionResult
  events : List Ev

/-- `vm_status["status"] != "running"` negated (line 38): only the string
`"running"` counts as running. -/
def isRunning (v : PyVal) : Bool :=
  match v with
  | .str s => s == "running"
  | _ => false

/-- Lines 51-88: the inner try block.  Submit the command, check for a
`pid`, sleep, poll `exec-status`, reject falsy poll responses.  Every
failure inside is wrapped by the handler on line 85 into
`RuntimeError("API call failed: " + str(e))`, after the more specific
wraps on lines 61 (`Failed to start command`) and 82
(`Failed to get command status`). -/
def innerProtocol (command : String) (c : Collab) : Except Exc PyVal × List Ev :=
  match c.execResult command with
  | .error e =>
      (.error ⟨false, "API call failed: Failed to start command: " ++ e.msg⟩, [.submit])
  | .ok exec_result =>
      match pyContains exec_result "pid" with
      | .error e => (.error ⟨false, "API call failed: " ++ e.msg⟩, [.submit])
      | .ok false =>
          (.error ⟨false, "API call failed: No PID returned from command execution"⟩, [.submit])
      | .ok true =>
          match pySubscript exec_result "pid" with
          | .error e => (.error ⟨false, "API call failed: " ++ e.msg⟩, [.submit])
          | .ok pid =>
              match c.pollResult pid with
              | .error e =>
                  (.error ⟨false, "API call failed: Failed to get command status: " ++ e.msg⟩,
                   [.submit, .settle, .poll])
              | .ok console =>
                  if console.truthy then
                    (.ok console, [.submit, .settle, .poll])
                  else
                    (.error ⟨false,
                      "API call failed: Failed to get command status: No response from exec-status"⟩,
                     [.submit, .settle, .poll])

/-- Lines 94-108: normalize the poll response.  A dict is read field by
field with defaults (`out-data` → `""`, `err-data` → `""`, `exitcode` → 0;
`exited` is only logged, never reflected in the result); anything else is
rendered with `str`.  `success` is unconditionally `True` (line 117). -/
def normalize (console : PyVal) : ExecutionResult :=
  match console with
  | .dict d =>
      { success := true
        output := dictGet d "out-data" (.str "")
        error := dictGet d "err-data" (.str "")
        exit_code := dictGet d "exitcode" (.int 0) }
  | v =>
      { success := true, output := .str (pyStr v), error := .str "", exit_code := .int 0 }

/-- Lines 123-130: the outer exception handler.  `ValueError` is re-raised
unchanged; any other exception whose message contains `"not found"`
(case-insensitive) becomes `ValueError("VM {vmid} not found on node
{node}")`; everything else becomes
`RuntimeError("Failed to execute command: " + str(e))`. -/
def outerHandler (node vmid : String) (e : Exc) : Exc :=
  if e.isValueError then e
  else if msgHasNotFound e.msg then
    ⟨true, s!"VM {vmid} not found on node {node}"⟩
  else
    ⟨false, "Failed to execute command: " ++ e.msg⟩

/-- The `ValueError` raised on line 40 when the VM is not running. -/
def notRunningErr (node vmid : String) : Exc :=
  ⟨true, s!"VM {vmid} on node {node} is not running"⟩

/-- The `ValueError` raised on line 129 by the not-found heuristic. -/
def notFoundErr (node vmid : String) : Exc :=
  ⟨true, s!"VM {vmid} not found on node {node}"⟩

/-- `VMConsoleManager.execute_command(node, vmid, command)`: status check
(lines 37-40), then the inner submit/settle/poll protocol, then
normalization and the four-field success result; every escaping exception
passes through the outer handler (lines 123-130). -/
def execute_command (node vmid command : String) (c : Collab) : Outcome :=
  match c.statusResult with
  | .error e => ⟨.error (outerHandler node vmid e), [.statusCheck]⟩
  | .ok vm_status =>
      match pySubscript vm_status "status" with
      | .error e => ⟨.error (outerHandler node vmid e), [.statusCheck]⟩
      | .ok st =>
          if isRunning st then
            match innerProtocol command c with
            | (.error e, evs) =>
                ⟨.error (outerHandler node vmid e), .statusCheck :: evs⟩
            | (.ok console, evs) =>
                ⟨.ok (normalize console), .statusCheck :: evs⟩
          else
            ⟨.error (outerHandler node vmid (notRunningErr node vmid)), [.statusCheck]⟩

/-- Spec-side predicate: the surfaced error is of the `StatusFetchError`
kind, i.e. a non-`ValueError` whose message records the poll-step wrap
(`Failed to get command status`, line 82). -/
def isStatusFetchError (e : Exc) : Bool :=
  !e.isValueError && charsHasSub "Failed to get command status".data e.msg.data

/- Concrete collaborators used by the witnesses and counterexamples. -/

/-- Status query reports a stopped VM. -/
def cStopped : Collab :=
  { statusResult := .ok (.dict [("status", .str "stopped")])
    execResult := fun _ => .ok (.dict [("pid", .int 1234)])
    pollResult := fun _ => .ok (.dict [("out-data", .str "x")]) }

/-- Healthy run: running VM, pid 1234, structured poll response
`\x7bout-data: "hi", err-data: "", exitcode: 0, exited: 1\x7d`. -/
def cHi : Collab :=
  { statusResult := .ok (.dict [("status", .str "running")])
    execResult := fun _ => .ok (.dict [("pid", .int 1234)])
    pollResult := fun _ => .ok (.dict
      [("out-data", .str "hi"), ("err-data", .str ""),
       ("exitcode", .int 0), ("exited", .int 1)]) }

/-- Poll returns the incomplete structured response `\x7bexited: 0\x7d`. -/
def cExited0 : Collab :=
  { statusResult := .ok (.dict [("status", .str "running")])
    execResult := fun _ => .ok (.dict [("pid", .int 1234)])
    pollResult := fun _ => .ok (.dict [("exited", .int 0)]) }

/-- Poll returns the non-mapping value `"done"`. -/
def cDone : Collab :=
  { statusResult := .ok (.dict [("status", .str "running")])
    execResult := fun _ => .ok (.dict [("pid", .int 1234)])
    pollResult := fun _ => .ok (.str "done") }

/-- Submit returns a mapping without a `pid` key. -/
def cNoPid : Collab :=
  { statusResult := .ok (.dict [("status", .str "running")])
    execResult := fun _ => .ok (.dict [("reason", .str "agent busy")])
    pollResult := fun _ => .ok (.dict []) }

/-- Poll returns the falsy non-mapping value `""`. -/
def cPollEmptyStr : Collab :=
  { statusResult := .ok (.dict [("status", .str "running")])
    execResult := fun _ => .ok (.dict [("pid", .int 1234)])
    pollResult := fun _ => .ok (.str "") }

/-- Poll raises with a message containing "not found". -/
def cPollNotFound : Collab :=
  { statusResult := .ok (.dict [("status", .str "running")])
    execResult := fun _ => .ok (.dict [("pid", .int 1234)])
    pollResult := fun _ => .error ⟨false, "QEMU guest agent pid not found"⟩ }

/-- Poll raises with a plain transport failure message. -/
def cPollPlainErr : Collab :=
  { statusResult := .ok (.dict [("status", .str "running")])
    execResult := fun _ => .ok (.dict [("pid", .int 1234)])
    pollResult := fun _ => .error ⟨false, "connection timeout"⟩ }

/-- The status query itself raises a `ValueError` whose message contains
"not found". -/
def cStatusVE : Collab :=
  { statusResult := .error ⟨true, "disk not found"⟩
    execResult := fun _ => .ok (.dict [])
    pollResult := fun _ => .ok (.dict []) }

/-- The status query raises a non-`ValueError` whose message contains
"not found". -/
def cStatusNotFound : Collab :=
  { statusResult := .error ⟨false, "vm 100 not found"⟩
    execResult := fun _ => .ok (.dict [])
    pollResult := fun _ => .ok (.dict []) }

/-- The submit call raises a `ValueError` with a plain message. -/
def cSubmitVE : Collab :=
  { statusResult := .ok (.dict [("status", .str "running")])
    execResult := fun _ => .error ⟨true, "boom"⟩
    pollResult := fun _ => .ok (.dict []) }

/-- The submit call raises a non-`ValueError` whose message contains
"not found". -/
def cSubmitNotFound : Collab :=
  { statusResult := .ok (.dict [("status", .str "running")])
    execResult := fun _ => .error ⟨false, "agent socket not found"⟩
    pollResult := fun _ => .ok (.dict []) }

/- String helper lemmas. -/

theorem charsHasSub_append_left (n b a : List Char)
    (h : charsHasSub n b = true) : charsHasSub n (a ++ b) = true := by
  induction a with
  | nil => simpa using h
  | cons c t ih =>
      simp only [List.cons_append, charsHasSub, Bool.or_eq_true]
      exact Or.inr ih

theorem charsHasPref_append (n s m : List Char)
    (h : charsHasPref n s = true) : charsHasPref n (s ++ m) = true := by
  induction n generalizing s with
  | nil => rfl
  | cons a p ih =>
      cases s with
      | nil => exact absurd h (by simp [charsHasPref])
      | cons b t =>
          simp only [charsHasPref, Bool.and_eq_true] at h
          simp only [List.cons_append, charsHasPref, Bool.and_eq_true]
          exact ⟨h.1, ih t h.2⟩

theorem charsHasSub_nil (m : List Char) : charsHasSub [] m = true := by
  cases m <;> simp [charsHasSub, charsHasPref]

theorem charsHasSub_append_right (n a m : List Char)
    (h : charsHasSub n a = true) : charsHasSub n (a ++ m) = true := by
  induction a with
  | nil =>
      cases n with
      | nil => simpa using charsHasSub_nil m
      | cons b p => exact absurd h (by simp [charsHasSub, charsHasPref])
  | cons c t ih =>
      simp only [charsHasSub, Bool.or_eq_true] at h
      simp only [List.cons_append, charsHasSub, Bool.or_eq_true]
      cases h with
      | inl hp => exact Or.inl (charsHasPref_append _ _ _ hp)
      | inr hs => exact Or.inr (ih hs)

theorem lowerDataAppend (a b : String) :
    (a ++ b).data.map Char.toLower = a.data.map Char.toLower ++ b.data.map Char.toLower := by
  rw [String.data_append, List.map_append]

theorem msgHasNotFound_append (pre m : String) (h : msgHasNotFound m = true) :
    msgHasNotFound (pre ++ m) = true := by
  unfold msgHasNotFound at *
  rw [lowerDataAppend]
  exact charsHasSub_append_left _ _ _ h

/-- The submit-step wrap (lines 61 and 88) introduces no occurrence of
"not found": the wrapped message matches the heuristic only when the
original does. -/
theorem noNF_wrapStart (m : String) (h : msgHasNotFound m = false) :
    msgHasNotFound ("API call failed: Failed to start command: " ++ m) = false := by
  unfold msgHasNotFound at *
  rw [lowerDataAppend]
  have hl : "API call failed: Failed to start command: ".data.map Char.toLower
      = "api call failed: failed to start command: ".data := by decide
  rw [hl]
  simp only [charsHasSub, charsHasPref, List.cons_append, List.nil_append, String.data] at *
  simp_all

/-- The poll-step wrap (lines 82 and 88) introduces no occurrence of
"not found" either. -/
theorem noNF_wrapGet (m : String) (h : msgHasNotFound m = false) :
    msgHasNotFound ("API call failed: Failed to get command status: " ++ m) = false := by
  unfold msgHasNotFound at *
  rw [lowerDataAppend]
  have hl : "API call failed: Failed to get command status: ".data.map Char.toLower
      = "api call failed: failed to get command status: ".data := by decide
  rw [hl]
  simp only [charsHasSub, charsHasPref, List.cons_append, List.nil_append, String.data] at *
  simp_all

/-- `success` is `True` on every path of the normalization (lines 94-121),
whatever the response holds. -/
theorem normalize_success (w : PyVal) : (normalize w).success = true := by
  cases w <;> rfl

/-- Claim C2: whenever the status query reports a status other than
"running", `execute_command` fails with the `NotRunningError`
`ValueError("VM \x7bvmid\x7d on node \x7bnode\x7d is not running")` and the event
trace shows the submit and poll operations were never invoked. -/
theorem C2_not_running_blocks (node vmid command : String) (c : Collab) (v st : PyVal)
    (hs : c.statusResult = .ok v)
    (hf : pySubscript v "status" = .ok st)
    (hr : isRunning st = false) :
    (execute_command node vmid command c).result = .error (notRunningErr node vmid) ∧
    (execute_command node vmid command c).events = [Ev.statusCheck] := by
  simp [execute_command, hs, hf, hr, outerHandler, notRunningErr]

/-- Witness for C2 at a concrete stopped VM. -/
theorem C2_not_running_blocks_w :
    (execute_command "node1" "100" "ls" cStopped).result
      = .error (notRunningErr "node1" "100") ∧
    (execute_command "node1" "100" "ls" cStopped).events = [Ev.statusCheck] :=
  C2_not_running_blocks "node1" "100" "ls" cStopped
    (.dict [("status", .str "stopped")]) (.str "stopped") rfl rfl rfl

/-- Claim C3: any poll response that reaches normalization (it is returned
by the poll call and passes the line-78 truthiness guard) yields a result
with `success = true`; `normalize` sets `success` to `true` for every
response, so the flag depends neither on the remote exit code nor on the
`exited` flag. -/
theorem C3_success_unconditional (node vmid command : String) (c : Collab)
    (v r pid console : PyVal)
    (hs : c.statusResult = .ok v)
    (hst : pySubscript v "status" = .ok (.str "running"))
    (he : c.execResult command = .ok r)
    (hc : pyContains r "pid" = .ok true)
    (hp : pySubscript r "pid" = .ok pid)
    (hq : c.pollResult pid = .ok console)
    (ht : console.truthy = true) :
    (execute_command node vmid command c).result = .ok (normalize console) ∧
    (normalize console).success = true := by
  constructor
  · simp [execute_command, innerProtocol, hs, hst, he, hc, hp, hq, isRunning, ht]
  · exact normalize_success console

/-- Witness for C3 at the incomplete structured poll response
`\x7bexited: 0\x7d` from the spec example. -/
theorem C3_success_unconditional_w :
    (execute_command "node1" "100" "ls" cExited0).result
      = .ok (normalize (.dict [("exited", .int 0)])) ∧
    (normalize (.dict [("exited", .int 0)])).success = true :=
  C3_success_unconditional "node1" "100" "ls" cExited0
    (.dict [("status", .str "running")]) (.dict [("pid", .int 1234)]) (.int 1234)
    (.dict [("exited", .int 0)]) rfl rfl rfl rfl rfl rfl rfl

/-- Claim C4: a structured (dict) poll response is normalized by reading
`out-data` (default `""`), `err-data` (default `""`) and `exitcode`
(default `0`); the witness instantiates this at
`\x7bout-data: "hi", err-data: "", exitcode: 0, exited: 1\x7d`, which yields
`\x7bsuccess: true, output: "hi", error: "", exit_code: 0\x7d`. -/
theorem C4_structured_extraction (node vmid command : String) (c : Collab)
    (v r pid : PyVal) (d : List (String × PyVal))
    (hs : c.statusResult = .ok v)
    (hst : pySubscript v "status" = .ok (.str "running"))
    (he : c.execResult command = .ok r)
    (hc : pyContains r "pid" = .ok true)
    (hp : pySubscript r "pid" = .ok pid)
    (hq : c.pollResult pid = .ok (.dict d))
    (ht : d.isEmpty = false) :
    (execute_command node vmid command c).result = .ok
      { success := true
        output := dictGet d "out-data" (.str "")
        error := dictGet d "err-data" (.str "")
        exit_code := dictGet d "exitcode" (.int 0) } := by
  simp [execute_command, innerProtocol, hs, hst, he, hc, hp, hq, isRunning,
    PyVal.truthy, ht, normalize]

/-- Witness for C4 at the spec example response. -/
theorem C4_structured_extraction_w :
    (execute_command "node1" "100" "ls" cHi).result = .ok
      { success := true, output := .str "hi", error := .str "", exit_code := .int 0 } :=
  C4_structured_extraction "node1" "100" "ls" cHi
    (.dict [("status", .str "running")]) (.dict [("pid", .int 1234)]) (.int 1234)
    [("out-data", .str "hi"), ("err-data", .str ""), ("exitcode", .int 0), ("exited", .int 1)]
    rfl rfl rfl rfl rfl rfl rfl

/-- Claim C5: whenever submission succeeds with a process identifier, the
event trace is exactly status-check, submit, settle, poll — one settle
delay, strictly after submit and strictly before poll — whatever the poll
then does; when the submit call raises, or returns no pid, the trace stops
at submit and contains no settle. -/
theorem C5_settle_once_between (node vmid command : String) (c : Collab) :
    (∀ v r pid, c.statusResult = .ok v → pySubscript v "status" = .ok (.str "running") →
      c.execResult command = .ok r → pyContains r "pid" = .ok true →
      pySubscript r "pid" = .ok pid →
      (execute_command node vmid command c).events
        = [Ev.statusCheck, Ev.submit, Ev.settle, Ev.poll]) ∧
    (∀ v e, c.statusResult = .ok v → pySubscript v "status" = .ok (.str "running") →
      c.execResult command = .error e →
      (execute_command node vmid command c).events = [Ev.statusCheck, Ev.submit]) ∧
    (∀ v r, c.statusResult = .ok v → pySubscript v "status" = .ok (.str "running") →
      c.execResult command = .ok r → pyContains r "pid" = .ok false →
      (execute_command node vmid command c).events = [Ev.statusCheck, Ev.submit]) := by
  refine ⟨fun v r pid hs hst he hc hp => ?_, fun v e hs hst he => ?_,
    fun v r hs hst he hc => ?_⟩
  · cases hq : c.pollResult pid with
    | error e =>
        simp [execute_command, innerProtocol, hs, hst, he, hc, hp, hq, isRunning]
    | ok console =>
        cases ht : console.truthy <;>
          simp [execute_command, innerProtocol, hs, hst, he, hc, hp, hq, isRunning, ht]
  · simp [execute_command, innerProtocol, hs, hst, he, isRunning]
  · simp [execute_command, innerProtocol, hs, hst, he, hc, isRunning]

/-- Witness for C5: the healthy run emits exactly the four events in
order, and a run whose submit response lacks a pid stops after submit. -/
theorem C5_settle_once_between_w :
    (execute_command "node1" "100" "ls" cHi).events
      = [Ev.statusCheck, Ev.submit, Ev.settle, Ev.poll] ∧
    (execute_command "node1" "100" "ls" cNoPid).events = [Ev.statusCheck, Ev.submit] :=
  ⟨(C5_settle_once_between "node1" "100" "ls" cHi).1
      (.dict [("status", .str "running")]) (.dict [("pid", .int 1234)]) (.int 1234)
      rfl rfl rfl rfl rfl,
   (C5_settle_once_between "node1" "100" "ls" cNoPid).2.2
      (.dict [("status", .str "running")]) (.dict [("reason", .str "agent busy")])
      rfl rfl rfl rfl⟩

/-- Claim C6: when the submit response carries no `pid`, the call fails
with the execution-start error (`RuntimeError` whose message records "No
PID returned from command execution" through the line-88 and line-130
wraps) and the poll operation is never invoked. -/
theorem C6_no_pid_fails_before_poll (node vmid command : String) (c : Collab) (v r : PyVal)
    (hs : c.statusResult = .ok v)
    (hst : pySubscript v "status" = .ok (.str "running"))
    (he : c.execResult command = .ok r)
    (hc : pyContains r "pid" = .ok false) :
    (execute_command node vmid command c).result = .error
      ⟨false, "Failed to execute command: API call failed: No PID returned from command execution"⟩ ∧
    (execute_command node vmid command c).events = [Ev.statusCheck, Ev.submit] := by
  have hnf : msgHasNotFound "API call failed: No PID returned from command execution" = false := by
    decide
  simp [execute_command, innerProtocol, hs, hst, he, hc, isRunning, outerHandler, hnf]

/-- Witness for C6 at a submit response `\x7breason: "agent busy"\x7d`. -/
theorem C6_no_pid_fails_before_poll_w :
    (execute_command "node1" "100" "ls" cNoPid).result = .error
      ⟨false, "Failed to execute command: API call failed: No PID returned from command execution"⟩ ∧
    (execute_command "node1" "100" "ls" cNoPid).events = [Ev.statusCheck, Ev.submit] :=
  C6_no_pid_fails_before_poll "node1" "100" "ls" cNoPid
    (.dict [("status", .str "running")]) (.dict [("reason", .str "agent busy")])
    rfl rfl rfl rfl

/-- Claim C10: every invocation that returns (rather than raises) returns
the four-field `ExecutionResult` record — the structure has exactly the
fields `success`, `output`, `error`, `exit_code` — and its `success` field
is the literal `true`; no path returns `success = false`. -/
theorem C10_returned_success_is_true (node vmid command : String) (c : Collab)
    (res : ExecutionResult)
    (h : (execute_command node vmid command c).result = .ok res) :
    res.success = true := by
  unfold execute_command at h
  split at h
  · simp at h
  · split at h
    · simp at h
    · split at h
      · split at h
        · simp at h
        · simp only [Except.ok.injEq] at h
          exact h ▸ normalize_success _
      · simp at h

/-- Witness for C10 at the healthy run. -/
theorem C10_returned_success_is_true_w :
    (ExecutionResult.mk true (.str "hi") (.str "") (.int 0)).success = true :=
  C10_returned_success_is_true "node1" "100" "ls" cHi
    (ExecutionResult.mk true (.str "hi") (.str "") (.int 0)) rfl

/-- Counterexample to claim C8: the falsy non-mapping poll response `""`
does not produce `\x7bsuccess: true, output: "", error: "", exitCode: 0\x7d` as
the claim requires of every non-mapping response — line 78 rejects it and
the call raises the wrapped no-response error instead. -/
theorem C8_counterexample :
    (execute_command "node1" "100" "ls" cPollEmptyStr).result = .error
      ⟨false,
       "Failed to execute command: API call failed: Failed to get command status: No response from exec-status"⟩ ∧
    (execute_command "node1" "100" "ls" cPollEmptyStr).result
      ≠ .ok ⟨true, .str "", .str "", .int 0⟩ := by
  have h : (execute_command "node1" "100" "ls" cPollEmptyStr).result = .error
      ⟨false,
       "Failed to execute command: API call failed: Failed to get command status: No response from exec-status"⟩ := by
    rfl
  exact ⟨h, by rw [h]; intro hh; exact Except.noConfusion hh⟩

/-- Claim C8 as amended: every truthy (non-empty) poll response that is
not a mapping yields `\x7bsuccess: true, output: str(response), error: "",
exitCode: 0\x7d`; falsy responses are instead rejected by the line-78 guard
(see the counterexample). -/
theorem C8_nonmapping_rendered (node vmid command : String) (c : Collab)
    (v r pid console : PyVal)
    (hs : c.statusResult = .ok v)
    (hst : pySubscript v "status" = .ok (.str "running"))
    (he : c.execResult command = .ok r)
    (hc : pyContains r "pid" = .ok true)
    (hp : pySubscript r "pid" = .ok pid)
    (hq : c.pollResult pid = .ok console)
    (hnd : ∀ d, console ≠ PyVal.dict d)
    (ht : console.truthy = true) :
    (execute_command node vmid command c).result
      = .ok ⟨true, .str (pyStr console), .str "", .int 0⟩ := by
  cases console
  case dict d => exact absurd rfl (hnd d)
  all_goals simp [execute_command, innerProtocol, hs, hst, he, hc, hp, hq, isRunning,
    ht, normalize, pyStr]

/-- Witness for the amended C8 at the non-mapping response `"done"`. -/
theorem C8_nonmapping_rendered_w :
    (execute_command "node1" "100" "ls" cDone).result
      = .ok ⟨true, .str "done", .str "", .int 0⟩ :=
  C8_nonmapping_rendered "node1" "100" "ls" cDone
    (.dict [("status", .str "running")]) (.dict [("pid", .int 1234)]) (.int 1234)
    (.str "done") rfl rfl rfl rfl rfl rfl (fun _ h => PyVal.noConfusion h) rfl

/-- Counterexample to claim C7: a collaborator failure raised during the
poll step whose message contains "not found" is NOT wrapped into the
status-fetch error kind — the line-128 heuristic turns it into the
not-found `ValueError`, which carries no trace of the poll-step wrap. -/
theorem C7_counterexample :
    (execute_command "node1" "100" "ls" cPollNotFound).result
      = .error (notFoundErr "node1" "100") ∧
    notFoundErr "node1" "100" = ⟨true, "VM 100 not found on node node1"⟩ ∧
    isStatusFetchError (notFoundErr "node1" "100") = false := by
  refine ⟨rfl, by decide, by decide⟩

/-- Claim C7 as amended: once a pid was obtained, an empty (falsy) poll
response fails with the status-fetch error ("No response from
exec-status"), and a collaborator failure during the poll step whose
message does not contain "not found" (case-insensitive) is wrapped into
the same error kind; both surfaced errors are of the status-fetch kind.
A poll failure whose message does contain "not found" is instead
reclassified by the not-found heuristic (see the counterexample). -/
theorem C7_poll_status_fetch (node vmid command : String) (c : Collab)
    (v r pid : PyVal)
    (hs : c.statusResult = .ok v)
    (hst : pySubscript v "status" = .ok (.str "running"))
    (he : c.execResult command = .ok r)
    (hc : pyContains r "pid" = .ok true)
    (hp : pySubscript r "pid" = .ok pid) :
    (∀ console, c.pollResult pid = .ok console → console.truthy = false →
       (execute_command node vmid command c).result = .error
         ⟨false,
          "Failed to execute command: API call failed: Failed to get command status: No response from exec-status"⟩) ∧
    (∀ e, c.pollResult pid = .error e → msgHasNotFound e.msg = false →
       (execute_command node vmid command c).result = .error
         ⟨false, "Failed to execute command: "
            ++ ("API call failed: Failed to get command status: " ++ e.msg)⟩) ∧
    isStatusFetchError
      ⟨false,
       "Failed to execute command: API call failed: Failed to get command status: No response from exec-status"⟩
      = true ∧
    (∀ m : String, isStatusFetchError
       ⟨false, "Failed to execute command: "
          ++ ("API call failed: Failed to get command status: " ++ m)⟩ = true) := by
  have hnf : msgHasNotFound
      "API call failed: Failed to get command status: No response from exec-status" = false := by
    decide
  refine ⟨fun console hq ht => ?_, fun e hq hne => ?_, by decide, fun m => ?_⟩
  · simp [execute_command, innerProtocol, hs, hst, he, hc, hp, hq, isRunning, ht,
      outerHandler, hnf]
  · have hw := noNF_wrapGet e.msg hne
    simp [execute_command, innerProtocol, hs, hst, he, hc, hp, hq, isRunning,
      outerHandler, hw]
  · have hsub : charsHasSub "Failed to get command status".data
        ("Failed to execute command: API call failed: ".data
          ++ "Failed to get command status: ".data) = true := by decide
    simp only [isStatusFetchError, Bool.not_false, Bool.true_and]
    have hd : ("Failed to execute command: "
        ++ ("API call failed: Failed to get command status: " ++ m)).data
        = ("Failed to execute command: API call failed: ".data
            ++ "Failed to get command status: ".data) ++ m.data := by
      simp [String.data_append, List.append_assoc]
    rw [hd]
    exact charsHasSub_append_right _ _ _ hsub

/-- Witness for the amended C7: the falsy response `""` and a plain
transport failure both surface as the wrapped status-fetch error. -/
theorem C7_poll_status_fetch_w :
    (execute_command "node1" "100" "ls" cPollEmptyStr).result = .error
      ⟨false,
       "Failed to execute command: API call failed: Failed to get command status: No response from exec-status"⟩ ∧
    (execute_command "node1" "100" "ls" cPollPlainErr).result = .error
      ⟨false, "Failed to execute command: "
         ++ ("API call failed: Failed to get command status: " ++ "connection timeout")⟩ :=
  ⟨(C7_poll_status_fetch "node1" "100" "ls" cPollEmptyStr
      (.dict [("status", .str "running")]) (.dict [("pid", .int 1234)]) (.int 1234)
      rfl rfl rfl rfl rfl).1 (.str "") rfl rfl,
   (C7_poll_status_fetch "node1" "100" "ls" cPollPlainErr
      (.dict [("status", .str "running")]) (.dict [("pid", .int 1234)]) (.int 1234)
      rfl rfl rfl rfl rfl).2.1 ⟨false, "connection timeout"⟩ rfl (by decide)⟩

/-- Counterexample to claim C9: a `ValueError` raised by the collaborator
inside the submit step does not propagate unchanged — the line-59/61
handler catches every exception type and re-raises it as a
`RuntimeError`, so the caller sees a non-`ValueError` with a wrapped
message instead of the original `ValueError("boom")`. -/
theorem C9_counterexample :
    (execute_command "node1" "100" "ls" cSubmitVE).result = .error
      ⟨false, "Failed to execute command: API call failed: Failed to start command: boom"⟩ ∧
    Exc.isValueError
      ⟨false, "Failed to execute command: API call failed: Failed to start command: boom"⟩
      = false ∧
    (⟨false, "Failed to execute command: API call failed: Failed to start command: boom"⟩ : Exc)
      ≠ ⟨true, "boom"⟩ := by
  refine ⟨rfl, rfl, by decide⟩

/-- Claim C9 as amended: a `ValueError` propagates to the caller
unchanged exactly when it reaches the outer line-123 handler — i.e. when
the status-check collaborator call raises it, or when it is the
not-running precondition failure.  A `ValueError` raised inside the
submit step is caught by the inner catch-all handlers and surfaced as a
wrapped `RuntimeError` instead (shown here for messages the not-found
heuristic does not reclassify). -/
theorem C9_valueerror_propagation (node vmid command : String) (c : Collab) :
    (∀ e : Exc, e.isValueError = true → c.statusResult = .error e →
       (execute_command node vmid command c).result = .error e) ∧
    (∀ v st, c.statusResult = .ok v → pySubscript v "status" = .ok st →
       isRunning st = false →
       (execute_command node vmid command c).result = .error (notRunningErr node vmid)) ∧
    (∀ v (e : Exc), c.statusResult = .ok v →
       pySubscript v "status" = .ok (.str "running") →
       c.execResult command = .error e → e.isValueError = true →
       msgHasNotFound e.msg = false →
       (execute_command node vmid command c).result = .error
         ⟨false, "Failed to execute command: "
            ++ ("API call failed: Failed to start command: " ++ e.msg)⟩) := by
  refine ⟨fun e hVE hs => ?_, fun v st hs hf hr => ?_, fun v e hs hst he hVE hne => ?_⟩
  · simp [execute_command, hs, outerHandler, hVE]
  · simp [execute_command, hs, hf, hr, outerHandler, notRunningErr]
  · have hw := noNF_wrapStart e.msg hne
    simp [execute_command, innerProtocol, hs, hst, he, isRunning, outerHandler, hw]

/-- Witness for the amended C9: a status-step `ValueError` propagates
verbatim, while a submit-step `ValueError` comes back wrapped. -/
theorem C9_valueerror_propagation_w :
    (execute_command "node1" "100" "ls" cStatusVE).result
      = .error ⟨true, "disk not found"⟩ ∧
    (execute_command "node1" "100" "ls" cSubmitVE).result = .error
      ⟨false, "Failed to execute command: "
         ++ ("API call failed: Failed to start command: " ++ "boom")⟩ :=
  ⟨(C9_valueerror_propagation "node1" "100" "ls" cStatusVE).1
      ⟨true, "disk not found"⟩ rfl rfl,
   (C9_valueerror_propagation "node1" "100" "ls" cSubmitVE).2.2
      (.dict [("status", .str "running")]) ⟨true, "boom"⟩ rfl rfl rfl rfl (by decide)⟩

/-- Counterexample to claim C1: a collaborator failure of type
`ValueError` whose message contains "not found", raised by the status
check, is re-raised verbatim by the line-123 `except ValueError` clause —
it is not surfaced as the `NotFoundError` `ValueError("VM \x7bvmid\x7d not
found on node \x7bnode\x7d")`, even though it is not a `NotRunningError`. -/
theorem C1_counterexample :
    (execute_command "node1" "100" "ls" cStatusVE).result
      = .error ⟨true, "disk not found"⟩ ∧
    msgHasNotFound "disk not found" = true ∧
    (⟨true, "disk not found"⟩ : Exc) ≠ notFoundErr "node1" "100" ∧
    (⟨true, "disk not found"⟩ : Exc) ≠ notRunningErr "node1" "100" := by
  refine ⟨rfl, by decide, by decide, by decide⟩

/-- Claim C1 as amended: any collaborator failure that is NOT a
`ValueError` and whose message contains "not found" (case-insensitive) is
surfaced as the `NotFoundError`, whichever step (status check, submit or
poll) raised it — the inner wraps preserve the message as a substring;
a `ValueError` reaching the outer handler (in particular
`NotRunningError`) instead propagates unchanged, never reclassified. -/
theorem C1_not_found_heuristic (node vmid command : String) (c : Collab) (e : Exc)
    (hVE : e.isValueError = false)
    (hM : msgHasNotFound e.msg = true) :
    (c.statusResult = .error e →
       (execute_command node vmid command c).result = .error (notFoundErr node vmid)) ∧
    (∀ v, c.statusResult = .ok v → pySubscript v "status" = .ok (.str "running") →
       c.execResult command = .error e →
       (execute_command node vmid command c).result = .error (notFoundErr node vmid)) ∧
    (∀ v r pid, c.statusResult = .ok v → pySubscript v "status" = .ok (.str "running") →
       c.execResult command = .ok r → pyContains r "pid" = .ok true →
       pySubscript r "pid" = .ok pid → c.pollResult pid = .error e →
       (execute_command node vmid command c).result = .error (notFoundErr node vmid)) ∧
    (∀ e2 : Exc, e2.isValueError = true → c.statusResult = .error e2 →
       (execute_command node vmid command c).result = .error e2) := by
  refine ⟨fun hs => ?_, fun v hs hst he => ?_, fun v r pid hs hst he hc hp hq => ?_,
    fun e2 hVE2 hs => ?_⟩
  · simp [execute_command, hs, outerHandler, hVE, hM, notFoundErr]
  · have hw := msgHasNotFound_append "API call failed: Failed to start command: " e.msg hM
    simp [execute_command, innerProtocol, hs, hst, he, isRunning, outerHandler, hw,
      notFoundErr]
  · have hw := msgHasNotFound_append "API call failed: Failed to get command status: "
      e.msg hM
    simp [execute_command, innerProtocol, hs, hst, he, hc, hp, hq, isRunning,
      outerHandler, hw, notFoundErr]
  · simp [execute_command, hs, outerHandler, hVE2]

/-- Witness for the amended C1: a non-`ValueError` "not found" failure at
the status check and one at the submit step both surface as the
`NotFoundError`. -/
theorem C1_not_found_heuristic_w :
    (execute_command "node1" "100" "ls" cStatusNotFound).result
      = .error (notFoundErr "node1" "100") ∧
    (execute_command "node1" "100" "ls" cSubmitNotFound).result
      = .error (notFoundErr "node1" "100") :=
  ⟨(C1_not_found_heuristic "node1" "100" "ls" cStatusNotFound
      ⟨false, "vm 100 not found"⟩ rfl (by decide)).1 rfl,
   (C1_not_found_heuristic "node1" "100" "ls" cSubmitNotFound
      ⟨false, "agent socket not found"⟩ rfl (by decide)).2.1
      (.dict [("status", .str "running")]) rfl rfl rfl⟩

end VmConsole
